import Mathlib

/-!
Shallow embedding of the AI-CV-App (src/AI-CV-App/app.py): the prompt
builder, the OpenAI call wrapper, the response splitter, the document
exporters and the submission handler. Python strings are modelled as
lists of characters (a Python `str` is a sequence of code points).
-/

namespace AICVApp

/-- The characters Python's `str.strip()` (no argument) removes: the code
points for which `str.isspace()` holds, given here numerically. -/
def pyIsSpace (c : Char) : Bool :=
  let n := c.toNat
  n = 0x20 || n = 0x9 || n = 0xa || n = 0xb || n = 0xc || n = 0xd ||
  n = 0x1c || n = 0x1d || n = 0x1e || n = 0x1f || n = 0x85 || n = 0xa0 ||
  n = 0x1680 || (0x2000 ≤ n && n ≤ 0x200a) ||
  n = 0x2028 || n = 0x2029 || n = 0x202f || n = 0x205f || n = 0x3000

/-- Python `str.strip()`: remove leading and trailing whitespace. -/
def pyStrip (s : List Char) : List Char :=
  ((s.dropWhile pyIsSpace).reverse.dropWhile pyIsSpace).reverse

/-- The line-boundary characters recognised by Python's `str.splitlines()`
(with CR LF additionally treated as one single boundary), numerically. -/
def pyIsLineBreak (c : Char) : Bool :=
  let n := c.toNat
  n = 0xa || n = 0xd || n = 0xb || n = 0xc ||
  n = 0x1c || n = 0x1d || n = 0x1e || n = 0x85 ||
  n = 0x2028 || n = 0x2029

/-- Worker for `pySplitlines`: `acc` holds the (reversed) characters of the
line currently being read.  A final line is emitted only if it is non-empty,
matching Python (no trailing empty line for text ending in a line break). -/
def splitlinesAux : List Char → List Char → List (List Char)
  | [], acc => if acc = [] then [] else [acc.reverse]
  | '\r' :: '\n' :: rest, acc => acc.reverse :: splitlinesAux rest []
  | c :: rest, acc =>
    if pyIsLineBreak c then acc.reverse :: splitlinesAux rest []
    else splitlinesAux rest (c :: acc)

/-- Python `str.splitlines()`. -/
def pySplitlines (s : List Char) : List (List Char) := splitlinesAux s []

/-- Python slicing `s[a:b]` for nonnegative indices (out-of-range indices
clamp; an empty slice results when `a ≥ b`). -/
def pySlice (s : List Char) (a b : Nat) : List Char := (s.take b).drop a

/-- Index of the first occurrence of `pat` as a contiguous substring
(Python `str.find` / `str.index`). -/
def findSub : List Char → List Char → Option Nat
  | [], pat => if pat.isPrefixOf ([] : List Char) then some 0 else none
  | c :: t, pat =>
    if pat.isPrefixOf (c :: t) then some 0
    else (findSub t pat).map (fun n => n + 1)

/-- Python substring membership, `pat in s`. -/
def containsSub (s pat : List Char) : Bool := (findSub s pat).isSome

/-- The literal resume delimiter marker (app.py lines 142-145). -/
def resumeTag : List Char := "---RESUME---".toList

/-- The literal cover-letter delimiter marker (app.py lines 142-146). -/
def coverTag : List Char := "---COVER LETTER---".toList

/-- The separator used to rejoin lines on the fallback path
(the join with "\n" at app.py lines 150-151). -/
def nlSep : List Char := "\n".toList

/-- app.py lines 140-151: split the raw model response into
(resume_text, cover_text).  Primary path when both literal markers occur:
resume is the slice from the end of the (first) resume marker to the start
of the (first) cover-letter marker, stripped; cover is everything after the
end of the cover-letter marker, stripped.  Otherwise the fallback splits by
line, giving the first 40 lines to the resume and the rest to the cover
letter, each rejoined with "\n". -/
def splitResponse (result : List Char) : List Char × List Char :=
  if containsSub result resumeTag && containsSub result coverTag then
    let rIdx := (findSub result resumeTag).getD 0 + resumeTag.length
    let cStart := (findSub result coverTag).getD 0
    let cIdx := cStart + coverTag.length
    (pyStrip (pySlice result rIdx cStart), pyStrip (result.drop cIdx))
  else
    let lines := pySplitlines result
    (List.intercalate nlSep (lines.take 40), List.intercalate nlSep (lines.drop 40))

/-! ### Candidate profile and prompt builder (app.py lines 25-47, 108-137) -/

/-- The three download formats offered by the form (app.py line 118). -/
inductive OutFormat where
  | TXT
  | PDF
  | DOCX

/-- The form fields collected by the presentation shell (app.py
lines 108-119).  `tone` is one of four enumerated strings; `outFormat` is
the selected download format. -/
structure FormData where
  name : List Char
  role : List Char
  email : List Char
  location : List Char
  experience : List Char
  education : List Char
  skills : List Char
  extra : List Char
  tone : List Char
  outFormat : OutFormat

/-- The fixed model identifier (app.py line 22). -/
def MODEL : List Char := "gpt-4o".toList

/-- Python `x or y` for strings: `y` exactly when `x` is empty. -/
def pyOrElse (s dflt : List Char) : List Char := if s = [] then dflt else s

/-- The placeholder substituted for a blank name (app.py line 127). -/
def candidatePlaceholder : List Char := "Candidate Name".toList

/-- The placeholder substituted for a blank target role (app.py line 128). -/
def rolePlaceholder : List Char := "Target Role".toList

/-- The `payload` dictionary built by the submit handler (app.py
lines 126-136): every text field is stripped, and blank name/role are
replaced by human-readable placeholders via Python `or`. -/
structure Payload where
  name : List Char
  role : List Char
  email : List Char
  location : List Char
  experience : List Char
  education : List Char
  skills : List Char
  extra : List Char
  tone : List Char

/-- app.py lines 126-136. -/
def mkPayload (f : FormData) : Payload :=
  { name := pyOrElse (pyStrip f.name) candidatePlaceholder
    role := pyOrElse (pyStrip f.role) rolePlaceholder
    email := pyStrip f.email
    location := pyStrip f.location
    experience := pyStrip f.experience
    education := pyStrip f.education
    skills := pyStrip f.skills
    extra := pyStrip f.extra
    tone := f.tone }

/-- Literal prompt text of the f-string in `make_prompt` (app.py
lines 27-47) up to the interpolation of the name. -/
def promptSeg1 : List Char :=
  ("\nYou are an expert resume writer and career coach. Produce TWO blocks separated with exact tags:\n---RESUME---\nFormat a concise, ATS-friendly resume in plain text (use bullets). Start with Name and Target Title, contact line (email/location if provided), then a 2-3 line Professional Summary tailored to the target role. Then Key Skills (comma/short list). Then Work Experience (reverse chronological: Company — Title — Dates, 3-6 bullets each focusing on achievements and metrics). Then Education. Keep it one page for <10 years experience, two pages max otherwise. Use strong action verbs and metrics when possible.\n\n---COVER LETTER---\nWrite a cover letter tailored to the role (3 short paragraphs): 1) Open referencing the role and why they\x27re excited, 2) Connect 1-2 concrete achievements/skills to the role, 3) Closing with enthusiasm and call-to-action. Keep professional and concise.\n\nUser info:\nName: ").toList

/-- Literal prompt text between the name and role interpolations. -/
def promptSeg2 : List Char := "\nTarget role: ".toList

/-- Literal prompt text between the role and location interpolations. -/
def promptSeg3 : List Char := "\nLocation: ".toList

/-- Literal prompt text between the location and email interpolations. -/
def promptSeg4 : List Char := "\nEmail: ".toList

/-- Literal prompt text between the email and experience interpolations. -/
def promptSeg5 : List Char := "\nExperience (raw text): ".toList

/-- Literal prompt text between the experience and education interpolations. -/
def promptSeg6 : List Char := "\nEducation: ".toList

/-- Literal prompt text between the education and skills interpolations. -/
def promptSeg7 : List Char := "\nSkills: ".toList

/-- Literal prompt text between the skills and tone interpolations. -/
def promptSeg8 : List Char := "\nTone: ".toList

/-- Literal prompt text between the tone and extra-notes interpolations. -/
def promptSeg9 : List Char := "\nExtra notes: ".toList

/-- Closing literal prompt text after the extra-notes interpolation. -/
def promptSeg10 : List Char :=
  "\n\nIMPORTANT: Put literal tags ---RESUME--- and ---COVER LETTER---. Output only these two blocks and nothing else.\n".toList

/-- `make_prompt` (app.py lines 25-47): the f-string interpolating every
payload field between the fixed literal segments, in source order. -/
def make_prompt (data : Payload) : List Char :=
  promptSeg1 ++ data.name ++ promptSeg2 ++ data.role ++ promptSeg3 ++
  data.location ++ promptSeg4 ++ data.email ++ promptSeg5 ++ data.experience ++
  promptSeg6 ++ data.education ++ promptSeg7 ++ data.skills ++ promptSeg8 ++
  data.tone ++ promptSeg9 ++ data.extra ++ promptSeg10

/-! ### Observable effects of the presentation shell -/

/-- A downloadable artifact content: either the raw text handed to the
download button (TXT branch) or the run list rendered by a document
exporter (PDF/DOCX branches). -/
inductive DlContent where
  | text (s : List Char)
  | rendered (runs : List (List Char))

/-- One download button: file name, MIME type and content
(app.py lines 162-174). -/
structure Download where
  filename : List Char
  mime : List Char
  content : DlContent

/-- The user-visible effects emitted by one submission (the `st.*` calls
of app.py lines 121-178). -/
inductive Effect where
  | info (msg : List Char)
  | error (msg : List Char)
  | subheader (msg : List Char)
  | codeBlock (content : List Char)
  | download (dl : Download)
  | success (msg : List Char)

/-! ### Generation client (app.py lines 49-63) -/

/-- Message shown by `call_openai` when the remote call raises
(app.py line 62): the f-string prefix followed by the cause text. -/
def openaiErrLabel : List Char := "OpenAI error: ".toList

/-- `call_openai` (app.py lines 49-63).  The remote chat-completion
endpoint is modelled as an oracle from the prompt to either the response
payload text or the text of the raised exception; the fixed request
parameters (model, system message, temperature 0.2, max_tokens 1600) do
not vary and are fixed constants of the call site.  On success the
response content is stripped and returned; any failure is caught once,
reported as a single visible error carrying the cause, and `None` is
returned. -/
def call_openai (remote : List Char → Except (List Char) (List Char))
    (prompt_text : List Char) : Option (List Char) × List Effect :=
  match remote prompt_text with
  | .ok content => (some (pyStrip content), [])
  | .error e => (none, [Effect.error (openaiErrLabel ++ e)])

/-! ### Document exporters (app.py lines 65-90)

`text_to_pdf_bytes` and `text_to_docx_bytes` delegate the byte-level
rendering to the third-party libraries fpdf and python-docx, which are not
part of this repository.  The byte serialisation is abstracted to the list
of text runs drawn into the document (one run for the title plus one per
body line); the libraries' documented input restrictions are modelled
exactly, since they are what can make these functions raise. -/

/-- Characters encodable in Latin-1.  The source selects the built-in core
font Arial (app.py lines 69 and 72); fpdf's core fonts carry a Latin-1
code page and the library raises on any character outside it
(`FPDFUnicodeEncodingException` in fpdf2, `UnicodeEncodeError` in classic
PyFPDF). -/
def latin1Encodable (c : Char) : Bool := c.toNat < 256

/-- Drawing one text run with an fpdf core font (`pdf.cell` /
`pdf.multi_cell`): the run is drawn as-is, or the library raises on a
non-Latin-1 character. -/
def fpdfRender (s : List Char) : Except (List Char) (List Char) :=
  if s.all latin1Encodable then .ok s
  else .error ("fpdf: character outside Latin-1".toList)

/-- Characters accepted by python-docx in paragraph text: the
XML-compatible code points (tab, LF, CR and the non-control ranges of the
XML character production).  python-docx raises `ValueError` for any other
character. -/
def xmlCompatible (c : Char) : Bool :=
  let n := c.toNat
  n = 0x9 || n = 0xa || n = 0xd ||
  (0x20 ≤ n && n ≤ 0xd7ff) ||
  (0xe000 ≤ n && n ≤ 0xfffd) ||
  (0x10000 ≤ n && n ≤ 0x10ffff)

/-- Adding one heading or paragraph with python-docx (`add_heading` /
`add_paragraph`): the text is stored as-is, or the library raises on an
XML-incompatible character. -/
def docxText (s : List Char) : Except (List Char) (List Char) :=
  if s.all xmlCompatible then .ok s
  else .error ("ValueError: All strings must be XML compatible".toList)

/-- A Python for-loop performing one fallible rendering call per line,
propagating the first raised error (short-circuiting like the raising
loop bodies at app.py lines 73-74 and 82-86). -/
def exceptMapList (f : List Char → Except (List Char) (List Char)) :
    List (List Char) → Except (List Char) (List (List Char))
  | [] => .ok []
  | l :: ls =>
    match f l with
    | .error e => .error e
    | .ok r =>
      match exceptMapList f ls with
      | .error e => .error e
      | .ok rs => .ok (r :: rs)

/-- `text_to_pdf_bytes` (app.py lines 65-77): draw the title cell in bold,
then one `multi_cell` per line of `body_text.splitlines()`, with automatic
page breaks; the resulting PDF bytes are abstracted to the list of drawn
runs, which is never empty (the title cell is always drawn). -/
def text_to_pdf_bytes (title body_text : List Char) :
    Except (List Char) (List (List Char)) :=
  match fpdfRender title with
  | .error e => .error e
  | .ok t =>
    match exceptMapList fpdfRender (pySplitlines body_text) with
    | .error e => .error e
    | .ok ls => .ok (t :: ls)

/-- One loop iteration of `text_to_docx_bytes` (app.py lines 82-86): a
line whose strip is empty is added as an empty paragraph, any other line
is added verbatim. -/
def docxParagraph (line : List Char) : Except (List Char) (List Char) :=
  if pyStrip line = [] then docxText [] else docxText line

/-- `text_to_docx_bytes` (app.py lines 79-90): add the title as a level-1
heading, then one paragraph per line of `body_text.splitlines()`; the
resulting DOCX bytes are abstracted to the list of stored paragraph
texts, which is never empty (the heading is always added). -/
def text_to_docx_bytes (title body_text : List Char) :
    Except (List Char) (List (List Char)) :=
  match docxText title with
  | .error e => .error e
  | .ok t =>
    match exceptMapList docxParagraph (pySplitlines body_text) with
    | .error e => .error e
    | .ok ps => .ok (t :: ps)

/-! ### Download preparation and the submission handler
(app.py lines 121-178) -/

/-- The timestamp format string passed to `strftime` (app.py line 160):
year, month, day, hour and minute of the local time — minute
resolution.  The wall clock itself is outside the embedding; handlers
below take the already-formatted timestamp as a parameter. -/
def TS_FORMAT : List Char := "%Y%m%d_%H%M".toList

/-- `base_name` (app.py line 161): the raw form name, or the literal
`candidate` exactly when the name is the empty string (Python `or` tests
emptiness, not blankness), with every space replaced by an underscore. -/
def base_name (name : List Char) : List Char :=
  (if name = [] then "candidate".toList else name).map
    (fun c => if c = ' ' then '_' else c)

/-- The basename rule as the specification words it, reading `blank` the
way the claims define it elsewhere (empty or whitespace-only): the
fallback literal for a blank name, otherwise the name with spaces
replaced by underscores.  Stated only to be compared with `base_name`,
which is translated from the source. -/
def claimBasename (name : List Char) : List Char :=
  if pyStrip name = [] then "candidate".toList
  else name.map (fun c => if c = ' ' then '_' else c)

/-- File extension of each download format (app.py lines 163-174). -/
def extOf : OutFormat → List Char
  | .TXT => "txt".toList
  | .PDF => "pdf".toList
  | .DOCX => "docx".toList

/-- Dotted file extension of each download format as it appears in the
file-name f-strings (app.py lines 163-174). -/
def extDot : OutFormat → List Char
  | .TXT => ".txt".toList
  | .PDF => ".pdf".toList
  | .DOCX => ".docx".toList

/-- MIME type passed to the download buttons for each format
(app.py lines 163-174). -/
def mimeOf : OutFormat → List Char
  | .TXT => "text/plain".toList
  | .PDF => "application/pdf".toList
  | .DOCX => "application/vnd.openxmlformats-officedocument.wordprocessingml.document".toList

/-- Download preparation (app.py lines 160-174), after the timestamp has
been formatted: two download buttons per submission.  The TXT branch hands
the section texts through unchanged; the PDF and DOCX branches run the
exporters (whose uncaught exceptions would abort the handler, hence the
`Except`).  `name` is the raw form name: it feeds both `base_name` and
the document titles. -/
def prepareDownloads (name : List Char) (fmt : OutFormat)
    (resume_text cover_text ts : List Char) :
    Except (List Char) (List Download) :=
  match fmt with
  | .TXT =>
    .ok [⟨base_name name ++ "_resume_".toList ++ ts ++ ".txt".toList,
          "text/plain".toList, .text resume_text⟩,
         ⟨base_name name ++ "_cover_".toList ++ ts ++ ".txt".toList,
          "text/plain".toList, .text cover_text⟩]
  | .PDF =>
    match text_to_pdf_bytes (name ++ " — Resume".toList) resume_text with
    | .error e => .error e
    | .ok resume_pdf =>
      match text_to_pdf_bytes (name ++ " — Cover Letter".toList) cover_text with
      | .error e => .error e
      | .ok cover_pdf =>
        .ok [⟨base_name name ++ "_resume_".toList ++ ts ++ ".pdf".toList,
              "application/pdf".toList, .rendered resume_pdf⟩,
             ⟨base_name name ++ "_cover_".toList ++ ts ++ ".pdf".toList,
              "application/pdf".toList, .rendered cover_pdf⟩]
  | .DOCX =>
    match text_to_docx_bytes (name ++ " — Resume".toList) resume_text with
    | .error e => .error e
    | .ok resume_docx =>
      match text_to_docx_bytes (name ++ " — Cover Letter".toList) cover_text with
      | .error e => .error e
      | .ok cover_docx =>
        .ok [⟨base_name name ++ "_resume_".toList ++ ts ++ ".docx".toList,
              "application/vnd.openxmlformats-officedocument.wordprocessingml.document".toList,
              .rendered resume_docx⟩,
             ⟨base_name name ++ "_cover_".toList ++ ts ++ ".docx".toList,
              "application/vnd.openxmlformats-officedocument.wordprocessingml.document".toList,
              .rendered cover_docx⟩]

/-- Python truthiness of the `OPENAI_KEY` global: `None` and the empty
string are falsy (app.py lines 12-20, 122). -/
def keyTruthy : Option (List Char) → Bool
  | none => false
  | some s => !(s = [])

/-- Error shown when no API key is configured (app.py line 123). -/
def noKeyMsg : List Char :=
  "No OpenAI API key found. Add OPENAI_API_KEY to Streamlit secrets or environment.".toList

/-- Progress message shown before the remote call (app.py line 125). -/
def generatingMsg : List Char := "Generating — please wait...".toList

/-- Error shown by the caller when `call_openai` returned `None`
(app.py line 178). -/
def genFailedMsg : List Char :=
  "Generation failed. Check API key, model availability, and quota.".toList

/-- Success message shown after the downloads (app.py line 176). -/
def successMsg : List Char :=
  "Generated — review and tweak before sending to employers.".toList

/-- Subheader above the resume display (app.py line 153). -/
def resumeHeader : List Char := "Generated Resume".toList

/-- Subheader above the cover-letter display (app.py line 156). -/
def coverHeader : List Char := "Generated Cover Letter".toList

/-- Placeholder shown in place of an empty cover letter (app.py
line 157). -/
def noCoverMsg : List Char := "(no cover letter detected)".toList

/-- The cover-letter display expression of app.py line 157:
`cover_text if cover_text else "(no cover letter detected)"`. -/
def coverDisplay (cover_text : List Char) : List Char :=
  if cover_text = [] then noCoverMsg else cover_text

/-- The submission handler (app.py lines 121-178), run once per submit
click.  `key` is the `OPENAI_KEY` global, `remote` the chat-completion
endpoint oracle, `ts` the formatted timestamp.  Returns the ordered list
of user-visible effects, or the message of an uncaught exporter
exception. -/
def submitHandler (key : Option (List Char)) (form : FormData)
    (remote : List Char → Except (List Char) (List Char)) (ts : List Char) :
    Except (List Char) (List Effect) :=
  if keyTruthy key = false then
    .ok [Effect.error noKeyMsg]
  else
    let payload := mkPayload form
    let prompt := make_prompt payload
    match call_openai remote prompt with
    | (some result, clientFx) =>
      let rc := splitResponse result
      match prepareDownloads form.name form.outFormat rc.1 rc.2 ts with
      | .error e => .error e
      | .ok dls =>
        .ok ([Effect.info generatingMsg] ++ clientFx ++
          [Effect.subheader resumeHeader, Effect.codeBlock rc.1,
           Effect.subheader coverHeader, Effect.codeBlock (coverDisplay rc.2)] ++
          dls.map Effect.download ++ [Effect.success successMsg])
    | (none, clientFx) =>
      .ok ([Effect.info generatingMsg] ++ clientFx ++ [Effect.error genFailedMsg])

/-! ### Concrete sample inputs used by the witnesses -/

/-- A form with every text field empty (TXT format, default tone). -/
def emptyForm : FormData :=
  ⟨[], [], [], [], [], [], [], [], "professional".toList, OutFormat.TXT⟩

/-- 50 lines of text with no delimiter markers. -/
def raw50 : List Char :=
  List.intercalate nlSep (List.replicate 50 ('x' :: []))

/-- A small body text with a blank line and a Latin-1 accented character. -/
def sampleBody : List Char := "line one\n\nrésumé line".toList

/-- Is an `Except` a success?  (Used to state that an exporter raised.) -/
def exceptOk {α β : Type} : Except α β → Bool
  | .ok _ => true
  | .error _ => false

/-! ### Helper lemmas -/

theorem take_app_length (a b : List Char) : (a ++ b).take a.length = a := by
  induction a with
  | nil => rfl
  | cons c t ih => simp [ih]

theorem drop_app_length (a b : List Char) : (a ++ b).drop a.length = b := by
  induction a with
  | nil => rfl
  | cons c t ih => simp [ih]

theorem take_app_of_length (a b : List Char) {n : Nat} (h : n = a.length) :
    (a ++ b).take n = a := by
  subst h; exact take_app_length a b

theorem drop_app_of_length (a b : List Char) {n : Nat} (h : n = a.length) :
    (a ++ b).drop n = b := by
  subst h; exact drop_app_length a b

theorem take_of_length_le {α : Type} (l : List α) (n : Nat) (h : l.length ≤ n) :
    l.take n = l := by
  induction l generalizing n with
  | nil => simp
  | cons c t ih =>
    cases n with
    | zero => simp at h
    | succ k => simp [ih k (by simpa using h)]

theorem drop_of_length_le {α : Type} (l : List α) (n : Nat) (h : l.length ≤ n) :
    l.drop n = [] := by
  induction l generalizing n with
  | nil => simp
  | cons c t ih =>
    cases n with
    | zero => simp at h
    | succ k => simp [ih k (by simpa using h)]

theorem isPrefixOf_append_self (p b : List Char) : p.isPrefixOf (p ++ b) = true := by
  induction p with
  | nil => simp [List.isPrefixOf]
  | cons c t ih => simp [List.isPrefixOf, ih]

theorem containsSub_of_isPrefixOf (hay pat : List Char) (h : pat.isPrefixOf hay = true) :
    containsSub hay pat = true := by
  cases hay with
  | nil => simp [containsSub, findSub, h]
  | cons c t => simp [containsSub, findSub, h]

theorem containsSub_here (pat b : List Char) : containsSub (pat ++ b) pat = true :=
  containsSub_of_isPrefixOf _ _ (isPrefixOf_append_self pat b)

theorem containsSub_cons (a : Char) (l pat : List Char)
    (h : containsSub l pat = true) : containsSub (a :: l) pat = true := by
  by_cases hp : pat.isPrefixOf (a :: l) = true
  · simp [containsSub, findSub, hp]
  · cases hf : findSub l pat with
    | none => rw [containsSub, hf] at h; simp at h
    | some n => simp [containsSub, findSub, hp, hf]

theorem containsSub_append_left (a l pat : List Char)
    (h : containsSub l pat = true) : containsSub (a ++ l) pat = true := by
  induction a with
  | nil => simpa using h
  | cons c t ih => exact containsSub_cons c (t ++ l) pat ih

/-! ### Claims about the response splitter -/

/-- C1: for every raw response that contains both literal markers — here
decomposed as `p ++ resumeTag ++ m ++ coverTag ++ q` with the hypotheses
pinning these occurrences as the first ones, which is what Python
`str.index` locates — the splitter returns the text strictly between the
end of the resume marker and the start of the cover-letter marker,
trimmed, as `resumeText`, and everything after the end of the
cover-letter marker, trimmed, as `coverLetterText`. -/
theorem C1_split_primary (p m q : List Char)
    (hR : findSub (p ++ resumeTag ++ m ++ coverTag ++ q) resumeTag = some p.length)
    (hC : findSub (p ++ resumeTag ++ m ++ coverTag ++ q) coverTag
        = some (p.length + resumeTag.length + m.length)) :
    splitResponse (p ++ resumeTag ++ m ++ coverTag ++ q) = (pyStrip m, pyStrip q) := by
  have hcR : containsSub (p ++ resumeTag ++ m ++ coverTag ++ q) resumeTag = true := by
    unfold containsSub
    rw [hR]
    rfl
  have hcC : containsSub (p ++ resumeTag ++ m ++ coverTag ++ q) coverTag = true := by
    unfold containsSub
    rw [hC]
    rfl
  have hcond : (containsSub (p ++ resumeTag ++ m ++ coverTag ++ q) resumeTag &&
      containsSub (p ++ resumeTag ++ m ++ coverTag ++ q) coverTag) = true := by
    rw [hcR, hcC]
    rfl
  have e1 : pySlice (p ++ resumeTag ++ m ++ coverTag ++ q)
      (p.length + resumeTag.length) (p.length + resumeTag.length + m.length) = m := by
    have hgrp : p ++ resumeTag ++ m ++ coverTag ++ q
        = ((p ++ resumeTag) ++ m) ++ (coverTag ++ q) := by
      simp [List.append_assoc]
    simp only [pySlice]
    rw [hgrp, take_app_of_length _ _ (by simp only [List.length_append]),
      drop_app_of_length _ _ (by simp only [List.length_append])]
  have e2 : (p ++ resumeTag ++ m ++ coverTag ++ q).drop
      (p.length + resumeTag.length + m.length + coverTag.length) = q := by
    rw [drop_app_of_length _ _ (by simp only [List.length_append])]
  simp only [splitResponse]
  rw [if_pos hcond]
  simp only [hR, hC, Option.getD_some]
  rw [e1, e2]

set_option maxRecDepth 20000 in
/-- Witness for C1 at the input of the claim:
"---RESUME---\nA\n---COVER LETTER---\nB" splits into "A" and "B". -/
theorem C1_split_primary_witness :
    splitResponse ("---RESUME---\nA\n---COVER LETTER---\nB".toList)
      = ("A".toList, "B".toList) := by
  have h := C1_split_primary [] ("\nA\n".toList) ("\nB".toList) (by decide) (by decide)
  have e : ([] : List Char) ++ resumeTag ++ "\nA\n".toList ++ coverTag ++ "\nB".toList
      = "---RESUME---\nA\n---COVER LETTER---\nB".toList := by decide
  have e1 : pyStrip ("\nA\n".toList) = "A".toList := by decide
  have e2 : pyStrip ("\nB".toList) = "B".toList := by decide
  rw [e, e1, e2] at h
  exact h

/-- C2: when at least one marker is missing, the splitter takes the
fallback path: the first 40 lines rejoined with newlines become the
resume, the remaining lines rejoined with newlines become the cover
letter. -/
theorem C2_split_fallback (raw : List Char)
    (h : containsSub raw resumeTag = false ∨ containsSub raw coverTag = false) :
    splitResponse raw =
      (List.intercalate nlSep ((pySplitlines raw).take 40),
       List.intercalate nlSep ((pySplitlines raw).drop 40)) := by
  rcases h with h | h <;> simp [splitResponse, h]

set_option maxRecDepth 20000 in
/-- Witness for C2 at a 50-line delimiter-free input. -/
theorem C2_split_fallback_witness :
    (pySplitlines raw50).length = 50 ∧
    containsSub raw50 resumeTag = false ∧
    splitResponse raw50 =
      (List.intercalate nlSep ((pySplitlines raw50).take 40),
       List.intercalate nlSep ((pySplitlines raw50).drop 40)) :=
  ⟨by decide, by decide, C2_split_fallback raw50 (Or.inl (by decide))⟩

/-- C9: the prompt builder and the response splitter are deterministic
pure functions — two calls on equal inputs give identical outputs. -/
theorem C9_deterministic (d₁ d₂ : Payload) (r₁ r₂ : List Char)
    (hd : d₁ = d₂) (hr : r₁ = r₂) :
    make_prompt d₁ = make_prompt d₂ ∧ splitResponse r₁ = splitResponse r₂ := by
  subst hd; subst hr; exact ⟨rfl, rfl⟩

/-- Witness for C9 at concrete inputs. -/
theorem C9_deterministic_witness :
    make_prompt (mkPayload emptyForm) = make_prompt (mkPayload emptyForm) ∧
    splitResponse ("x".toList) = splitResponse ("x".toList) :=
  C9_deterministic _ _ _ _ rfl rfl

/-- C10: on the fallback path with at most 40 lines, the cover letter is
empty, the resume receives all available lines, and the display
expression shows the literal "(no cover letter detected)". -/
theorem C10_fallback_short (raw : List Char)
    (h : containsSub raw resumeTag = false ∨ containsSub raw coverTag = false)
    (hlen : (pySplitlines raw).length ≤ 40) :
    (splitResponse raw).2 = [] ∧
    (splitResponse raw).1 = List.intercalate nlSep (pySplitlines raw) ∧
    coverDisplay (splitResponse raw).2 = noCoverMsg := by
  have hsp : splitResponse raw =
      (List.intercalate nlSep ((pySplitlines raw).take 40),
       List.intercalate nlSep ((pySplitlines raw).drop 40)) := by
    rcases h with h | h <;> simp [splitResponse, h]
  rw [hsp]
  simp [take_of_length_le _ _ hlen, drop_of_length_le _ _ hlen,
    List.intercalate, coverDisplay]

set_option maxRecDepth 20000 in
/-- Witness for C10 at a 2-line delimiter-free input. -/
theorem C10_fallback_short_witness :
    (splitResponse ("a\nb".toList)).2 = [] ∧
    (splitResponse ("a\nb".toList)).1
      = List.intercalate nlSep (pySplitlines ("a\nb".toList)) ∧
    coverDisplay (splitResponse ("a\nb".toList)).2 = noCoverMsg :=
  C10_fallback_short _ (Or.inl (by decide)) (by decide)

/-- C4: when name and target role are blank (empty or whitespace-only),
the payload carries the placeholders "Candidate Name" and "Target Role"
and the rendered prompt contains both placeholder strings. -/
theorem C4_blank_placeholders (f : FormData)
    (hn : pyStrip f.name = []) (hr : pyStrip f.role = []) :
    (mkPayload f).name = candidatePlaceholder ∧
    (mkPayload f).role = rolePlaceholder ∧
    containsSub (make_prompt (mkPayload f)) candidatePlaceholder = true ∧
    containsSub (make_prompt (mkPayload f)) rolePlaceholder = true := by
  have h1 : (mkPayload f).name = candidatePlaceholder := by
    simp [mkPayload, pyOrElse, hn]
  have h2 : (mkPayload f).role = rolePlaceholder := by
    simp [mkPayload, pyOrElse, hr]
  refine ⟨h1, h2, ?_, ?_⟩
  · simp only [make_prompt, h1, List.append_assoc]
    exact containsSub_append_left _ _ _ (containsSub_here _ _)
  · simp only [make_prompt, h2, List.append_assoc]
    exact containsSub_append_left _ _ _ (containsSub_append_left _ _ _
      (containsSub_append_left _ _ _ (containsSub_here _ _)))

set_option maxRecDepth 20000 in
/-- Witness for C4 at the all-empty form. -/
theorem C4_blank_placeholders_witness :
    (mkPayload emptyForm).name = candidatePlaceholder ∧
    (mkPayload emptyForm).role = rolePlaceholder ∧
    containsSub (make_prompt (mkPayload emptyForm)) candidatePlaceholder = true ∧
    containsSub (make_prompt (mkPayload emptyForm)) rolePlaceholder = true :=
  C4_blank_placeholders emptyForm (by decide) (by decide)

/-! ### Lemmas about the exporters -/

theorem splitlinesAux_chars :
    ∀ (s acc : List Char), ∀ l ∈ splitlinesAux s acc, ∀ c ∈ l, c ∈ s ∨ c ∈ acc := by
  intro s acc
  induction s, acc using splitlinesAux.induct with
  | case1 =>
    intro l hl
    simp [splitlinesAux] at hl
  | case2 acc hacc =>
    intro l hl c hc
    rw [splitlinesAux.eq_1, if_neg hacc] at hl
    simp at hl
    subst hl
    exact Or.inr (by simpa using hc)
  | case3 rest acc ih =>
    intro l hl c hc
    rw [splitlinesAux.eq_2] at hl
    rcases List.mem_cons.mp hl with hl | hl
    · subst hl
      exact Or.inr (by simpa using hc)
    · rcases ih l hl c hc with h | h
      · exact Or.inl (by simp [h])
      · simp at h
  | case4 ch rest acc hne hbrk ih =>
    intro l hl c hc
    rw [splitlinesAux.eq_3 _ _ _ hne, if_pos hbrk] at hl
    rcases List.mem_cons.mp hl with hl | hl
    · subst hl
      exact Or.inr (by simpa using hc)
    · rcases ih l hl c hc with h | h
      · exact Or.inl (by simp [h])
      · simp at h
  | case5 ch rest acc hne hbrk ih =>
    intro l hl c hc
    rw [splitlinesAux.eq_3 _ _ _ hne, if_neg hbrk] at hl
    rcases ih l hl c hc with h | h
    · exact Or.inl (by simp [h])
    · rcases List.mem_cons.mp h with h | h
      · exact Or.inl (by simp [h])
      · exact Or.inr h

theorem pySplitlines_all (p : Char → Bool) (body : List Char)
    (hb : body.all p = true) :
    ∀ l ∈ pySplitlines body, l.all p = true := by
  intro l hl
  rw [List.all_eq_true] at hb ⊢
  intro c hc
  rcases splitlinesAux_chars body [] l hl c hc with h | h
  · exact hb c h
  · simp at h

theorem exceptMapList_ok (f : List Char → Except (List Char) (List Char))
    (g : List Char → List Char) (ls : List (List Char))
    (h : ∀ l ∈ ls, f l = .ok (g l)) :
    exceptMapList f ls = .ok (ls.map g) := by
  induction ls with
  | nil => rfl
  | cons l t ih =>
    have hl : f l = .ok (g l) := h l (by simp)
    have ht : exceptMapList f t = .ok (t.map g) :=
      ih (fun x hx => h x (by simp [hx]))
    simp [exceptMapList, hl, ht]

theorem text_to_pdf_bytes_ok (title body : List Char)
    (ht : title.all latin1Encodable = true)
    (hb : body.all latin1Encodable = true) :
    text_to_pdf_bytes title body = .ok (title :: pySplitlines body) := by
  have h1 : fpdfRender title = .ok title := by simp [fpdfRender, ht]
  have h2 : exceptMapList fpdfRender (pySplitlines body)
      = .ok (pySplitlines body) := by
    have := exceptMapList_ok fpdfRender (fun l => l) (pySplitlines body)
      (fun l hl => by simp [fpdfRender, pySplitlines_all latin1Encodable body hb l hl])
    simpa using this
  simp [text_to_pdf_bytes, h1, h2]

theorem text_to_docx_bytes_ok (title body : List Char)
    (ht : title.all xmlCompatible = true)
    (hb : body.all xmlCompatible = true) :
    text_to_docx_bytes title body
      = .ok (title :: (pySplitlines body).map (fun l => if pyStrip l = [] then [] else l)) := by
  have h1 : docxText title = .ok title := by simp [docxText, ht]
  have h2 : exceptMapList docxParagraph (pySplitlines body)
      = .ok ((pySplitlines body).map (fun l => if pyStrip l = [] then [] else l)) := by
    refine exceptMapList_ok docxParagraph _ (pySplitlines body) (fun l hl => ?_)
    by_cases hs : pyStrip l = []
    · simp [docxParagraph, hs, docxText]
    · simp [docxParagraph, hs, docxText,
        pySplitlines_all xmlCompatible body hb l hl]
  simp [text_to_docx_bytes, h1, h2]

/-! ### Claims about the exporters, downloads and the handler -/

set_option maxRecDepth 20000 in
/-- Counterexample to C3 as stated: the PDF exporter raises on a CJK
character (outside the Latin-1 code page of the core font selected by the
source), and the DOCX exporter raises on a NUL character (rejected by the
XML-compatibility check of the docx library); neither returns a byte
sequence for these inputs. -/
theorem C3_exporters_counterexample :
    exceptOk (text_to_pdf_bytes [] ("文".toList)) = false ∧
    exceptOk (text_to_docx_bytes [] ('\x00' :: [])) = false := by
  constructor <;> decide

/-- C3 (amended): for every (title, body) pair — including an empty title,
bodies with blank lines and arbitrarily long bodies — whose characters the
respective target container supports (all Latin-1-encodable for the PDF
exporter; all XML-compatible for the DOCX exporter), the exporter succeeds
and returns the full, never-empty run list: the title run followed by one
run per body line with no line dropped (the DOCX exporter stores
whitespace-only lines as empty paragraphs). -/
theorem C3_exporters_amended (title body : List Char) :
    (title.all latin1Encodable = true → body.all latin1Encodable = true →
      text_to_pdf_bytes title body = .ok (title :: pySplitlines body)) ∧
    (title.all xmlCompatible = true → body.all xmlCompatible = true →
      text_to_docx_bytes title body
        = .ok (title :: (pySplitlines body).map (fun l => if pyStrip l = [] then [] else l))) :=
  ⟨fun ht hb => text_to_pdf_bytes_ok title body ht hb,
   fun ht hb => text_to_docx_bytes_ok title body ht hb⟩

set_option maxRecDepth 20000 in
/-- Witness for C3 (amended) at an empty title and a body with a blank
line and an accented Latin-1 character. -/
theorem C3_exporters_amended_witness :
    text_to_pdf_bytes [] sampleBody = .ok ([] :: pySplitlines sampleBody) ∧
    text_to_docx_bytes [] sampleBody
      = .ok ([] :: (pySplitlines sampleBody).map (fun l => if pyStrip l = [] then [] else l)) :=
  ⟨(C3_exporters_amended [] sampleBody).1 (by decide) (by decide),
   (C3_exporters_amended [] sampleBody).2 (by decide) (by decide)⟩

set_option maxRecDepth 20000 in
/-- Counterexample to C5 as stated: for the whitespace-only (blank but
non-empty) name " ", the code computes the basename "_" — the space is
replaced by an underscore — and not the fallback literal "candidate" that
the claim prescribes for a blank name. -/
theorem C5_basename_counterexample :
    base_name (" ".toList) = "_".toList ∧
    claimBasename (" ".toList) = "candidate".toList ∧
    base_name (" ".toList) ≠ claimBasename (" ".toList) := by
  exact ⟨by decide, by decide, by decide⟩

/-- C5 (amended): whenever download preparation succeeds, the two offered
file names are `basename_resume_ts.ext` and `basename_cover_ts.ext`, both
with the MIME type of the selected format, where ext/MIME are the matching
pair for the format and `base_name` falls back to the literal `candidate`
only when the name is the empty string (a whitespace-only name instead has
its spaces replaced by underscores). -/
theorem C5_filenames_amended (name : List Char) (fmt : OutFormat)
    (resume_text cover_text ts : List Char) (dls : List Download)
    (h : prepareDownloads name fmt resume_text cover_text ts = .ok dls) :
    dls.map Download.filename =
      [base_name name ++ "_resume_".toList ++ ts ++ extDot fmt,
       base_name name ++ "_cover_".toList ++ ts ++ extDot fmt] ∧
    dls.map Download.mime = [mimeOf fmt, mimeOf fmt] ∧
    ((extDot fmt = ".txt".toList ∧ mimeOf fmt = "text/plain".toList) ∨
     (extDot fmt = ".pdf".toList ∧ mimeOf fmt = "application/pdf".toList) ∨
     (extDot fmt = ".docx".toList ∧
      mimeOf fmt = "application/vnd.openxmlformats-officedocument.wordprocessingml.document".toList)) := by
  cases fmt with
  | TXT =>
    simp only [prepareDownloads] at h
    injection h with h'
    subst h'
    exact ⟨rfl, rfl, Or.inl ⟨rfl, rfl⟩⟩
  | PDF =>
    simp only [prepareDownloads] at h
    cases h1 : text_to_pdf_bytes (name ++ " — Resume".toList) resume_text with
    | error e => rw [h1] at h; exact absurd h (by simp)
    | ok r1 =>
      rw [h1] at h
      cases h2 : text_to_pdf_bytes (name ++ " — Cover Letter".toList) cover_text with
      | error e => rw [h2] at h; exact absurd h (by simp)
      | ok r2 =>
        rw [h2] at h
        simp only at h
        injection h with h'
        subst h'
        exact ⟨rfl, rfl, Or.inr (Or.inl ⟨rfl, rfl⟩)⟩
  | DOCX =>
    simp only [prepareDownloads] at h
    cases h1 : text_to_docx_bytes (name ++ " — Resume".toList) resume_text with
    | error e => rw [h1] at h; exact absurd h (by simp)
    | ok r1 =>
      rw [h1] at h
      cases h2 : text_to_docx_bytes (name ++ " — Cover Letter".toList) cover_text with
      | error e => rw [h2] at h; exact absurd h (by simp)
      | ok r2 =>
        rw [h2] at h
        simp only at h
        injection h with h'
        subst h'
        exact ⟨rfl, rfl, Or.inr (Or.inr ⟨rfl, rfl⟩)⟩

set_option maxRecDepth 20000 in
/-- Witness for C5 (amended) at the profile name "Jane Doe", TXT format
and a concrete timestamp; the resulting resume file name evaluates to
`Jane_Doe_resume_20250101_1200.txt`. -/
theorem C5_filenames_amended_witness :
    ([⟨base_name ("Jane Doe".toList) ++ "_resume_".toList ++ "20250101_1200".toList ++ ".txt".toList,
       "text/plain".toList, DlContent.text ("r".toList)⟩,
      ⟨base_name ("Jane Doe".toList) ++ "_cover_".toList ++ "20250101_1200".toList ++ ".txt".toList,
       "text/plain".toList, DlContent.text ("c".toList)⟩] :
        List Download).map Download.filename =
      [base_name ("Jane Doe".toList) ++ "_resume_".toList ++ "20250101_1200".toList ++ extDot OutFormat.TXT,
       base_name ("Jane Doe".toList) ++ "_cover_".toList ++ "20250101_1200".toList ++ extDot OutFormat.TXT] ∧
    base_name ("Jane Doe".toList) ++ "_resume_".toList ++ "20250101_1200".toList ++ extDot OutFormat.TXT
      = "Jane_Doe_resume_20250101_1200.txt".toList :=
  ⟨(C5_filenames_amended ("Jane Doe".toList) OutFormat.TXT ("r".toList) ("c".toList)
      ("20250101_1200".toList) _ rfl).1,
   by decide⟩

/-- C6: when the API key is absent (or empty), the only observable effect
of a submission is the configuration-error message, the handler does not
crash, and its outcome is independent of the remote generation endpoint —
the client is never invoked. -/
theorem C6_missing_key (key : Option (List Char)) (form : FormData)
    (remote₁ remote₂ : List Char → Except (List Char) (List Char))
    (ts₁ ts₂ : List Char) (hkey : keyTruthy key = false) :
    submitHandler key form remote₁ ts₁ = .ok [Effect.error noKeyMsg] ∧
    submitHandler key form remote₁ ts₁ = submitHandler key form remote₂ ts₂ := by
  have h : ∀ r ts, submitHandler key form r ts = .ok [Effect.error noKeyMsg] := by
    intro r ts
    simp [submitHandler, hkey]
  exact ⟨h _ _, (h _ _).trans (h _ _).symm⟩

/-- Witness for C6 with no key configured and two different remote
oracles. -/
theorem C6_missing_key_witness :
    submitHandler none emptyForm (fun _ => .ok []) [] = .ok [Effect.error noKeyMsg] ∧
    submitHandler none emptyForm (fun _ => .ok []) []
      = submitHandler none emptyForm (fun _ => .error []) ('t' :: []) :=
  C6_missing_key none emptyForm _ _ _ _ (by decide)

/-- C7: when the remote call fails with any cause, `call_openai` catches
the failure once, emits exactly one visible error carrying the cause, and
returns the failure marker `none`; the submission's full effect trace is
then the progress message, that single cause-carrying error and the
caller's halt message — no split output, no display sections, no
downloads, no success message, and the single remote outcome is consulted
exactly once (no retry). -/
theorem C7_failure_halts (key : Option (List Char)) (form : FormData)
    (remote : List Char → Except (List Char) (List Char)) (ts cause : List Char)
    (hkey : keyTruthy key = true)
    (hfail : remote (make_prompt (mkPayload form)) = .error cause) :
    call_openai remote (make_prompt (mkPayload form))
      = (none, [Effect.error (openaiErrLabel ++ cause)]) ∧
    submitHandler key form remote ts =
      .ok [Effect.info generatingMsg, Effect.error (openaiErrLabel ++ cause),
           Effect.error genFailedMsg] := by
  have hco : call_openai remote (make_prompt (mkPayload form))
      = (none, [Effect.error (openaiErrLabel ++ cause)]) := by
    simp [call_openai, hfail]
  refine ⟨hco, ?_⟩
  simp [submitHandler, hkey, hco]

/-- Witness for C7 with a concrete key, a failing remote and the cause
"q". -/
theorem C7_failure_halts_witness :
    call_openai (fun _ => .error ('q' :: [])) (make_prompt (mkPayload emptyForm))
      = (none, [Effect.error (openaiErrLabel ++ ('q' :: []))]) ∧
    submitHandler (some ('k' :: [])) emptyForm (fun _ => .error ('q' :: [])) [] =
      .ok [Effect.info generatingMsg, Effect.error (openaiErrLabel ++ ('q' :: [])),
           Effect.error genFailedMsg] :=
  C7_failure_halts (some ('k' :: [])) emptyForm (fun _ => .error ('q' :: []))
    [] ('q' :: []) (by decide) rfl

/-- C8: the plain-text export is the identity — for every body text the
TXT download branch hands the resume and cover texts through as download
contents unchanged, with no title embedded. -/
theorem C8_txt_identity (name resume_text cover_text ts : List Char) :
    prepareDownloads name OutFormat.TXT resume_text cover_text ts =
      .ok [⟨base_name name ++ "_resume_".toList ++ ts ++ ".txt".toList,
            "text/plain".toList, DlContent.text resume_text⟩,
           ⟨base_name name ++ "_cover_".toList ++ ts ++ ".txt".toList,
            "text/plain".toList, DlContent.text cover_text⟩] := rfl

end AICVApp
